import Mathlib

/-!
Shallow embedding of the PS/2 mouse driver (`src/mouse.rs`, `src/error.rs`
of the `ps2-rs` crate) and proofs about its command/response behaviour.

The `Controller`, the bit-flag types and the protocol byte constants are
defined outside the files available under `src/`; those parts are modelled
from the specification (sections 4.1, 4.2 and 6) as a scripted bus: the
controller holds a script of responses for `read_data` and records every
bus operation in a log, so that theorems can speak about which bytes were
written and how many bytes were read.

All byte values are represented as `Nat` (Rust `u8` guarantees `< 256`,
which appears as a hypothesis where it matters); the Rust
`u16`-to-`i16` reinterpretation is made explicit by `u16_as_i16`.
-/

namespace Ps2

/-- Modelled from the spec (section 4.5 / `src/error.rs` lines 1-5):
controller-level failures. -/
inductive ControllerError where
  | Timeout
  | TestFailed (response : Nat)
deriving DecidableEq, Repr

/-- From `src/error.rs` lines 17-25: the mouse error taxonomy. -/
inductive MouseError where
  | SelfTestFailed
  | Resend
  | InvalidResponse (b : Nat)
  | InvalidResolution (b : Nat)
  | InvalidSampleRate (b : Nat)
  | ControllerError (e : ControllerError)
deriving DecidableEq, Repr

/-- From `src/error.rs` lines 33-37: `impl From<ControllerError> for MouseError`
wraps the controller error losslessly. -/
def MouseError.fromControllerError (e : Ps2.ControllerError) : MouseError :=
  MouseError.ControllerError e

/-- Modelled from the spec (section 6): acknowledgment byte `0xFA`. -/
def COMMAND_ACKNOWLEDGED : Nat := 0xfa

/-- Modelled from the spec (section 6): resend-request byte `0xFE`. -/
def RESEND : Nat := 0xfe

/-- Modelled from the spec (section 6): self-test pass byte `0xAA`. -/
def SELF_TEST_PASSED : Nat := 0xaa

/-- Modelled from the spec (section 6): self-test fail byte `0xFC`. -/
def SELF_TEST_FAILED : Nat := 0xfc

/-- One operation performed on the bus, recorded in the controller log. -/
inductive BusOp where
  | write_mouse (b : Nat)
  | write_data (b : Nat)
  | read_data
deriving DecidableEq, Repr

/-- Modelled from the spec (section 4.1, `controller.rs` is not under `src/`):
the controller as a scripted bus.  `input` is the sequence of results the
hardware will deliver to successive `read_data` calls (a byte, or a
controller-level failure such as a poll timeout); `log` records every bus
operation performed so far. -/
structure Controller where
  input : List (Except ControllerError Nat)
  log : List BusOp

/-- Modelled from the spec (section 4.1): `read_data` polls until the output
buffer is full and returns the data byte, or fails with a controller error;
with the script exhausted the poll never succeeds, which is a `Timeout`.
The read is recorded in the log. -/
def Controller.read_data (self : Controller) : Except ControllerError Nat × Controller :=
  match self.input with
  | [] => (Except.error ControllerError.Timeout, { self with log := self.log ++ [BusOp.read_data] })
  | r :: rest => (r, { input := rest, log := self.log ++ [BusOp.read_data] })

/-- Modelled from the spec (section 4.1): `write_mouse` selects the auxiliary
channel and writes the byte.  The write is recorded in the log; a write
poll timeout is not exercised by any claim, so writes succeed. -/
def Controller.write_mouse (self : Controller) (b : Nat) : Except ControllerError Unit × Controller :=
  (Except.ok (), { self with log := self.log ++ [BusOp.write_mouse b] })

/-- Modelled from the spec (section 4.1): `write_data` writes the byte to the
data port.  The write is recorded in the log. -/
def Controller.write_data (self : Controller) (b : Nat) : Except ControllerError Unit × Controller :=
  (Except.ok (), { self with log := self.log ++ [BusOp.write_data b] })

/-- Modelled from the spec (section 4.2, `flags.rs` is not under `src/`):
`MouseStatus` is a bit-flag value parsed from one byte; construction never
fails, unknown bits are simply dropped, so the value is the raw byte
truncated to 8 bits. -/
structure MouseStatus where
  bits : Nat
deriving DecidableEq, Repr

/-- Modelled from the spec (section 4.2): `from_bits_truncate` never fails. -/
def MouseStatus.from_bits_truncate (b : Nat) : MouseStatus :=
  ⟨b % 256⟩

/-- Modelled from the spec (sections 4.2 and 4.4, `flags.rs` is not under
`src/`): the movement-flags byte, a bitset exposing in particular the X and
Y sign bits consumed by `Mouse.read_data` for 9-bit sign extension. -/
structure MouseMovement where
  bits : Nat
deriving DecidableEq, Repr

/-- Modelled from the spec (section 4.2): `from_bits_truncate` never fails. -/
def MouseMovement.from_bits_truncate (b : Nat) : MouseMovement :=
  ⟨b % 256⟩

/-- Modelled from the spec (section 4.4) and the PS/2 movement packet layout:
the X sign flag is bit 4 of the movement-flags byte. -/
def MouseMovement.X_SIGN_BIT : MouseMovement := ⟨0x10⟩

/-- Modelled from the spec (section 4.4) and the PS/2 movement packet layout:
the Y sign flag is bit 5 of the movement-flags byte. -/
def MouseMovement.Y_SIGN_BIT : MouseMovement := ⟨0x20⟩

/-- Bitflags `contains`: all bits of `flag` are set in `self`. -/
def MouseMovement.contains (self flag : MouseMovement) : Bool :=
  self.bits &&& flag.bits == flag.bits

/-- From `src/mouse.rs` line 12: `VALID_RESOLUTIONS`. -/
def VALID_RESOLUTIONS : List Nat := [1, 2, 4, 8]

/-- From `src/mouse.rs` line 13: `VALID_SAMPLE_RATES`. -/
def VALID_SAMPLE_RATES : List Nat := [10, 20, 40, 60, 80, 100, 200]

/-- From `src/mouse.rs` lines 17-35: the mouse command opcodes. -/
inductive Command where
  | SetScaling1To1
  | SetScaling2To1
  | SetResolution
  | StatusRequest
  | SetStreamMode
  | ReadData
  | ResetWrapMode
  | SetWrapMode
  | SetRemoteMode
  | GetDeviceID
  | SetSampleRate
  | EnableDataReporting
  | DisableDataReporting
  | SetDefaults
  | ResendLastPacket
  | ResetAndSelfTest
deriving DecidableEq, Repr

/-- The `#[repr(u8)]` discriminants of `Command` (`src/mouse.rs` lines 17-35);
`command as u8` in `write_command`. -/
def Command.toByte : Command → Nat
  | .SetScaling1To1 => 0xe6
  | .SetScaling2To1 => 0xe7
  | .SetResolution => 0xe8
  | .StatusRequest => 0xe9
  | .SetStreamMode => 0xea
  | .ReadData => 0xeb
  | .ResetWrapMode => 0xec
  | .SetWrapMode => 0xee
  | .SetRemoteMode => 0xf0
  | .GetDeviceID => 0xf2
  | .SetSampleRate => 0xf3
  | .EnableDataReporting => 0xf4
  | .DisableDataReporting => 0xf5
  | .SetDefaults => 0xf6
  | .ResendLastPacket => 0xfe
  | .ResetAndSelfTest => 0xff

/-- Rust `v as i16` on a `u16` value: reinterpret the low 16 bits as a
signed 16-bit integer. -/
def u16_as_i16 (v : Nat) : Int :=
  if v % 65536 < 32768 then ((v % 65536 : Nat) : Int) else ((v % 65536 : Nat) : Int) - 65536

namespace Mouse

/-- From `src/mouse.rs` lines 60-66: `Mouse::check_response` reads one byte
and classifies it (`COMMAND_ACKNOWLEDGED` / `RESEND` / other); a controller
error from the read is wrapped by the `?` conversion. -/
def check_response (c : Controller) : Except MouseError Unit × Controller :=
  match c.read_data with
  | (Except.error e, c1) => (Except.error (MouseError.fromControllerError e), c1)
  | (Except.ok b, c1) =>
    if b = COMMAND_ACKNOWLEDGED then (Except.ok (), c1)
    else if b = RESEND then (Except.error MouseError.Resend, c1)
    else (Except.error (MouseError.InvalidResponse b), c1)

/-- From `src/mouse.rs` lines 68-76: `Mouse::write_command` writes the command
byte to the mouse channel, checks the acknowledgment, and, when a data byte
is present, writes it and checks its acknowledgment. -/
def write_command (c : Controller) (command : Command) (data : Option Nat) :
    Except MouseError Unit × Controller :=
  match c.write_mouse command.toByte with
  | (Except.error e, c1) => (Except.error (MouseError.fromControllerError e), c1)
  | (Except.ok _, c1) =>
    match check_response c1 with
    | (Except.error e, c2) => (Except.error e, c2)
    | (Except.ok _, c2) =>
      match data with
      | none => (Except.ok (), c2)
      | some d =>
        match c2.write_data d with
        | (Except.error e, c3) => (Except.error (MouseError.fromControllerError e), c3)
        | (Except.ok _, c3) =>
          match check_response c3 with
          | (Except.error e, c4) => (Except.error e, c4)
          | (Except.ok _, c4) => (Except.ok (), c4)

/-- From `src/mouse.rs` lines 86-97: `Mouse::set_resolution` validates the
argument against `VALID_RESOLUTIONS`, then sends the `SetResolution` command
with the argument's index in `VALID_RESOLUTIONS` as the data byte. -/
def set_resolution (c : Controller) (resolution : Nat) : Except MouseError Unit × Controller :=
  if ¬ VALID_RESOLUTIONS.contains resolution then
    (Except.error (MouseError.InvalidResolution resolution), c)
  else
    let resolution_index := VALID_RESOLUTIONS.findIdx (fun n => n == resolution)
    write_command c Command.SetResolution (some resolution_index)

/-- From `src/mouse.rs` lines 99-111: `Mouse::request_status` sends the
`StatusRequest` command, reads the status, resolution and sample-rate bytes
in that order, then re-validates resolution and sample rate. -/
def request_status (c : Controller) :
    Except MouseError (MouseStatus × Nat × Nat) × Controller :=
  match write_command c Command.StatusRequest none with
  | (Except.error e, c1) => (Except.error e, c1)
  | (Except.ok _, c1) =>
    match c1.read_data with
    | (Except.error e, c2) => (Except.error (MouseError.fromControllerError e), c2)
    | (Except.ok sb, c2) =>
      let status := MouseStatus.from_bits_truncate sb
      match c2.read_data with
      | (Except.error e, c3) => (Except.error (MouseError.fromControllerError e), c3)
      | (Except.ok resolution, c3) =>
        match c3.read_data with
        | (Except.error e, c4) => (Except.error (MouseError.fromControllerError e), c4)
        | (Except.ok sample_rate, c4) =>
          if ¬ VALID_RESOLUTIONS.contains resolution then
            (Except.error (MouseError.InvalidResolution resolution), c4)
          else if ¬ VALID_SAMPLE_RATES.contains sample_rate then
            (Except.error (MouseError.InvalidSampleRate sample_rate), c4)
          else
            (Except.ok (status, resolution, sample_rate), c4)

/-- From `src/mouse.rs` lines 117-131: `Mouse::read_data` sends the `ReadData`
command, reads the movement-flags byte then raw X then raw Y, ORs `0xFF00`
into a 16-bit holder when the corresponding sign bit is set, and
reinterprets each holder as `i16`. -/
def read_data (c : Controller) :
    Except MouseError (MouseMovement × Int × Int) × Controller :=
  match write_command c Command.ReadData none with
  | (Except.error e, c1) => (Except.error e, c1)
  | (Except.ok _, c1) =>
    match c1.read_data with
    | (Except.error e, c2) => (Except.error (MouseError.fromControllerError e), c2)
    | (Except.ok fb, c2) =>
      let movement_flags := MouseMovement.from_bits_truncate fb
      match c2.read_data with
      | (Except.error e, c3) => (Except.error (MouseError.fromControllerError e), c3)
      | (Except.ok xb, c3) =>
        match c3.read_data with
        | (Except.error e, c4) => (Except.error (MouseError.fromControllerError e), c4)
        | (Except.ok yb, c4) =>
          let x_movement :=
            if movement_flags.contains MouseMovement.X_SIGN_BIT then xb ||| 0xff00 else xb
          let y_movement :=
            if movement_flags.contains MouseMovement.Y_SIGN_BIT then yb ||| 0xff00 else yb
          (Except.ok (movement_flags, u16_as_i16 x_movement, u16_as_i16 y_movement), c4)

/-- From `src/mouse.rs` lines 150-155: `Mouse::set_sample_rate` validates the
argument against `VALID_SAMPLE_RATES`, then sends the `SetSampleRate`
command with the raw value as the data byte. -/
def set_sample_rate (c : Controller) (sample_rate : Nat) : Except MouseError Unit × Controller :=
  if ¬ VALID_SAMPLE_RATES.contains sample_rate then
    (Except.error (MouseError.InvalidSampleRate sample_rate), c)
  else
    write_command c Command.SetSampleRate (some sample_rate)

/-- From `src/mouse.rs` lines 176-186: `Mouse::reset_and_self_test` sends the
`ResetAndSelfTest` command, classifies the self-test byte, then reads and
discards one trailing device-ID byte before returning the classification. -/
def reset_and_self_test (c : Controller) : Except MouseError Unit × Controller :=
  match write_command c Command.ResetAndSelfTest none with
  | (Except.error e, c1) => (Except.error e, c1)
  | (Except.ok _, c1) =>
    match c1.read_data with
    | (Except.error e, c2) => (Except.error (MouseError.fromControllerError e), c2)
    | (Except.ok b, c2) =>
      let result : Except MouseError Unit :=
        if b = SELF_TEST_PASSED then Except.ok ()
        else if b = SELF_TEST_FAILED then Except.error MouseError.SelfTestFailed
        else if b = RESEND then Except.error MouseError.Resend
        else Except.error (MouseError.InvalidResponse b)
      match c2.read_data with
      | (Except.error e, c3) => (Except.error (MouseError.fromControllerError e), c3)
      | (Except.ok _device_id, c3) => (result, c3)

end Mouse

/-! ## Helper lemmas shared by the claim theorems -/

set_option maxRecDepth 4000

/-- Bit 4 test via masking, for bytes. -/
theorem and_sixteen_eq_testBit : ∀ b < 256, ((b &&& 0x10 == 0x10) = Nat.testBit b 4) := by
  decide

/-- Bit 5 test via masking, for bytes. -/
theorem and_thirtytwo_eq_testBit : ∀ b < 256, ((b &&& 0x20 == 0x20) = Nat.testBit b 5) := by
  decide

/-- OR-ing `0xFF00` into a byte and reinterpreting as `i16` subtracts 256. -/
theorem u16_as_i16_or_ff00 : ∀ b < 256, u16_as_i16 (b ||| 0xff00) = (b : Int) - 256 := by
  decide

/-- A plain byte reinterpreted as `i16` is itself. -/
theorem u16_as_i16_byte : ∀ b < 256, u16_as_i16 b = (b : Int) := by
  decide

/-- If the acknowledgment of the command byte comes back as `RESEND`,
`write_command` stops: the data byte is never written. -/
theorem write_command_resend (cmd : Command) (d : Nat)
    (rest : List (Except ControllerError Nat)) (lg : List BusOp) :
    Mouse.write_command ⟨Except.ok RESEND :: rest, lg⟩ cmd (some d) =
      (Except.error MouseError.Resend,
       ⟨rest, lg ++ [BusOp.write_mouse cmd.toByte, BusOp.read_data]⟩) := by
  simp [Mouse.write_command, Mouse.check_response, Controller.read_data,
    Controller.write_mouse, RESEND, COMMAND_ACKNOWLEDGED]

/-- With both acknowledgments delivered, `write_command` with a data byte
writes the command byte to the mouse channel, reads the acknowledgment,
writes the data byte, and reads its acknowledgment. -/
theorem write_command_data_ok (cmd : Command) (d : Nat)
    (rest : List (Except ControllerError Nat)) (lg : List BusOp) :
    Mouse.write_command
        ⟨Except.ok COMMAND_ACKNOWLEDGED :: Except.ok COMMAND_ACKNOWLEDGED :: rest, lg⟩
        cmd (some d) =
      (Except.ok (),
       ⟨rest, lg ++ [BusOp.write_mouse cmd.toByte, BusOp.read_data,
                     BusOp.write_data d, BusOp.read_data]⟩) := by
  simp [Mouse.write_command, Mouse.check_response, Controller.read_data,
    Controller.write_mouse, Controller.write_data, COMMAND_ACKNOWLEDGED]

/-! ## Claim theorems -/

/-- Claim C1: for every outcome of the self-test byte read,
`Mouse::reset_and_self_test` classifies the self-test byte as pass ⇒ `Ok`,
fail byte ⇒ `SelfTestFailed`, resend byte ⇒ `Resend`, any other byte ⇒
`InvalidResponse(byte)`, and then unconditionally reads and discards exactly
one trailing device-ID byte before returning that classification, on success
and failure paths alike.  The script delivers the command acknowledgment,
the self-test byte `st`, and the device-ID byte `idb`; the residual input
`rest` and the log show that exactly one trailing byte was consumed. -/
theorem reset_and_self_test_classifies (st idb : Nat)
    (rest : List (Except ControllerError Nat)) (lg : List BusOp) :
    Mouse.reset_and_self_test
        ⟨Except.ok COMMAND_ACKNOWLEDGED :: Except.ok st :: Except.ok idb :: rest, lg⟩ =
      ((if st = SELF_TEST_PASSED then Except.ok ()
        else if st = SELF_TEST_FAILED then Except.error MouseError.SelfTestFailed
        else if st = RESEND then Except.error MouseError.Resend
        else Except.error (MouseError.InvalidResponse st)),
       ⟨rest, lg ++ [BusOp.write_mouse 0xff, BusOp.read_data, BusOp.read_data,
                     BusOp.read_data]⟩) := by
  simp [Mouse.reset_and_self_test, Mouse.write_command, Mouse.check_response,
    Controller.read_data, Controller.write_mouse, MouseError.fromControllerError,
    Command.toByte, COMMAND_ACKNOWLEDGED]

/-- Claim C8: `Mouse::check_response` reads exactly one byte and returns
`Ok(())` on the acknowledgment code `0xFA`, `Resend` on the resend code
`0xFE`, `InvalidResponse(b)` on any other byte `b`, and wraps a
controller-level read error into the mouse error type. -/
theorem check_response_classifies (r : Except ControllerError Nat)
    (rest : List (Except ControllerError Nat)) (lg : List BusOp) :
    Mouse.check_response ⟨r :: rest, lg⟩ =
      ((match r with
        | Except.error e => Except.error (MouseError.ControllerError e)
        | Except.ok b =>
          if b = COMMAND_ACKNOWLEDGED then Except.ok ()
          else if b = RESEND then Except.error MouseError.Resend
          else Except.error (MouseError.InvalidResponse b)),
       ⟨rest, lg ++ [BusOp.read_data]⟩) := by
  rcases r with e | b
  · simp [Mouse.check_response, Controller.read_data, MouseError.fromControllerError]
  · simp only [Mouse.check_response, Controller.read_data, MouseError.fromControllerError]
    split_ifs <;> rfl

/-- Claim C10: in `Mouse::reset_and_self_test`, if the read of the trailing
device-ID byte fails with a controller error, the wrapped controller error
is what the operation returns, for every self-test byte `st` — in
particular for `st = SELF_TEST_PASSED (0xAA)`, where the successful
classification is discarded in favor of the trailing read's error. -/
theorem reset_and_self_test_trailing_error (st : Nat) (e : ControllerError)
    (rest : List (Except ControllerError Nat)) (lg : List BusOp) :
    (Mouse.reset_and_self_test
        ⟨Except.ok COMMAND_ACKNOWLEDGED :: Except.ok st :: Except.error e :: rest, lg⟩).1 =
      Except.error (MouseError.ControllerError e) := by
  simp [Mouse.reset_and_self_test, Mouse.write_command, Mouse.check_response,
    Controller.read_data, Controller.write_mouse, MouseError.fromControllerError,
    COMMAND_ACKNOWLEDGED]

/-- Claim C4: for every `u8` value `r` outside `{1,2,4,8}`,
`Mouse::set_resolution(r)` returns `InvalidResolution(r)` and leaves the
controller untouched: the returned controller state is the input state, so
no bus write and no bus read happened. -/
theorem set_resolution_rejects_invalid (r : Nat) (h : r ∉ VALID_RESOLUTIONS)
    (c : Controller) :
    Mouse.set_resolution c r = (Except.error (MouseError.InvalidResolution r), c) := by
  simp [Mouse.set_resolution, h]

/-- Witness for C4 at the concrete invalid resolution 3 and an empty bus. -/
theorem set_resolution_rejects_invalid_witness :
    (3 : Nat) ∉ VALID_RESOLUTIONS ∧
      Mouse.set_resolution ⟨[], []⟩ 3 =
        (Except.error (MouseError.InvalidResolution 3), ⟨[], []⟩) :=
  ⟨by decide, set_resolution_rejects_invalid 3 (by decide) ⟨[], []⟩⟩

/-- Claim C3: for both mouse operations that send a command byte followed by
a data byte (`set_resolution` and `set_sample_rate`), if the controller
returns the resend code in place of the acknowledgment of the command byte,
the operation returns `Resend` and the trailing data byte is never written:
the final log holds exactly the command-byte write and the acknowledgment
read, with no `write_data` entry. -/
theorem resend_on_command_aborts_data_byte (r s : Nat)
    (hr : r ∈ VALID_RESOLUTIONS) (hs : s ∈ VALID_SAMPLE_RATES)
    (rest : List (Except ControllerError Nat)) (lg : List BusOp) :
    Mouse.set_resolution ⟨Except.ok RESEND :: rest, lg⟩ r =
      (Except.error MouseError.Resend,
       ⟨rest, lg ++ [BusOp.write_mouse 0xe8, BusOp.read_data]⟩) ∧
    Mouse.set_sample_rate ⟨Except.ok RESEND :: rest, lg⟩ s =
      (Except.error MouseError.Resend,
       ⟨rest, lg ++ [BusOp.write_mouse 0xf3, BusOp.read_data]⟩) := by
  constructor
  · simp [Mouse.set_resolution, hr, write_command_resend, Command.toByte]
  · simp [Mouse.set_sample_rate, hs, write_command_resend, Command.toByte]

/-- Witness for C3 at resolution 1 and sample rate 10. -/
theorem resend_on_command_aborts_data_byte_witness :
    (1 : Nat) ∈ VALID_RESOLUTIONS ∧ (10 : Nat) ∈ VALID_SAMPLE_RATES ∧
    (Mouse.set_resolution ⟨[Except.ok 0xfe], []⟩ 1 =
      (Except.error MouseError.Resend,
       ⟨[], [BusOp.write_mouse 0xe8, BusOp.read_data]⟩) ∧
     Mouse.set_sample_rate ⟨[Except.ok 0xfe], []⟩ 10 =
      (Except.error MouseError.Resend,
       ⟨[], [BusOp.write_mouse 0xf3, BusOp.read_data]⟩)) :=
  ⟨by decide, by decide,
   resend_on_command_aborts_data_byte 1 10 (by decide) (by decide) [] []⟩

/-- Claim C7: for every value `s` outside `{10,20,40,60,80,100,200}`,
`Mouse::set_sample_rate(s)` returns `InvalidSampleRate(s)` with the
controller untouched; for every `t` in that set, the command is sent with
`t` itself — the raw value, not an index — as the data byte. -/
theorem set_sample_rate_validates_and_sends_raw (s t : Nat)
    (hs : s ∉ VALID_SAMPLE_RATES) (ht : t ∈ VALID_SAMPLE_RATES)
    (c : Controller) (rest : List (Except ControllerError Nat)) (lg : List BusOp) :
    Mouse.set_sample_rate c s = (Except.error (MouseError.InvalidSampleRate s), c) ∧
    Mouse.set_sample_rate
        ⟨Except.ok COMMAND_ACKNOWLEDGED :: Except.ok COMMAND_ACKNOWLEDGED :: rest, lg⟩ t =
      (Except.ok (),
       ⟨rest, lg ++ [BusOp.write_mouse 0xf3, BusOp.read_data,
                     BusOp.write_data t, BusOp.read_data]⟩) := by
  constructor
  · simp [Mouse.set_sample_rate, hs]
  · simp [Mouse.set_sample_rate, ht, write_command_data_ok, Command.toByte]

/-- Witness for C7 at invalid rate 55 and valid rate 200. -/
theorem set_sample_rate_validates_and_sends_raw_witness :
    (55 : Nat) ∉ VALID_SAMPLE_RATES ∧ (200 : Nat) ∈ VALID_SAMPLE_RATES ∧
    (Mouse.set_sample_rate ⟨[], []⟩ 55 =
      (Except.error (MouseError.InvalidSampleRate 55), ⟨[], []⟩) ∧
     Mouse.set_sample_rate ⟨[Except.ok 0xfa, Except.ok 0xfa], []⟩ 200 =
      (Except.ok (),
       ⟨[], [BusOp.write_mouse 0xf3, BusOp.read_data,
             BusOp.write_data 200, BusOp.read_data]⟩)) :=
  ⟨by decide, by decide,
   set_sample_rate_validates_and_sends_raw 55 200 (by decide) (by decide) ⟨[], []⟩ [] []⟩

/-- Claim C6: after the acknowledged status-request command,
`Mouse::request_status` reads exactly three bytes in the fixed order status
flags, resolution, sample rate (the log holds the command write, the
acknowledgment read and three data reads; the residual input is `rest`);
it returns `InvalidResolution(res)` when the resolution byte is outside
`{1,2,4,8}`, `InvalidSampleRate(sr)` when the sample-rate byte is outside
`{10,20,40,60,80,100,200}`, and otherwise the decoded triple. -/
theorem request_status_reads_three_and_validates (st res sr : Nat)
    (rest : List (Except ControllerError Nat)) (lg : List BusOp) :
    Mouse.request_status
        ⟨Except.ok COMMAND_ACKNOWLEDGED :: Except.ok st :: Except.ok res ::
           Except.ok sr :: rest, lg⟩ =
      ((if res ∉ VALID_RESOLUTIONS then Except.error (MouseError.InvalidResolution res)
        else if sr ∉ VALID_SAMPLE_RATES then Except.error (MouseError.InvalidSampleRate sr)
        else Except.ok (MouseStatus.from_bits_truncate st, res, sr)),
       ⟨rest, lg ++ [BusOp.write_mouse 0xe9, BusOp.read_data, BusOp.read_data,
                     BusOp.read_data, BusOp.read_data]⟩) := by
  by_cases h1 : res ∈ VALID_RESOLUTIONS <;> by_cases h2 : sr ∈ VALID_SAMPLE_RATES <;>
    simp [Mouse.request_status, Mouse.write_command, Mouse.check_response,
      Controller.read_data, Controller.write_mouse, MouseError.fromControllerError,
      Command.toByte, COMMAND_ACKNOWLEDGED, h1, h2]

/-- Claim C5 counterexample: `set_resolution 4` transmits index 2 on the
wire, but `request_status` does not apply the inverse index-to-value
mapping: fed the very byte 2 that `set_resolution 4` transmitted, it
returns resolution 2 — not 4 — because it merely validates the raw byte
against `{1,2,4,8}` and passes it through. -/
theorem set_resolution_index_not_inverted_by_request_status :
    (Mouse.set_resolution ⟨[Except.ok 0xfa, Except.ok 0xfa], []⟩ 4).2.log =
      [BusOp.write_mouse 0xe8, BusOp.read_data, BusOp.write_data 2, BusOp.read_data] ∧
    (Mouse.request_status ⟨[Except.ok 0xfa, Except.ok 0, Except.ok 2, Except.ok 10], []⟩).1 =
      Except.ok (⟨0⟩, 2, 10) ∧
    (2 : Nat) ≠ 4 :=
  ⟨rfl, rfl, by decide⟩

/-- Claim C5 as amended: for every `r` in the ordered set `{1,2,4,8}`,
`Mouse::set_resolution(r)` transmits as its data byte the index of `r` in
that set (so `r = 4` transmits 2); `request_status`, however, performs no
inverse index decoding — for every in-range resolution byte `b` and
sample-rate byte `sr` it returns the resolution byte `b` unchanged. -/
theorem set_resolution_sends_index_status_returns_raw (r b sr st : Nat)
    (hr : r ∈ VALID_RESOLUTIONS) (hb : b ∈ VALID_RESOLUTIONS)
    (hsr : sr ∈ VALID_SAMPLE_RATES)
    (rest : List (Except ControllerError Nat)) (lg : List BusOp) :
    Mouse.set_resolution
        ⟨Except.ok COMMAND_ACKNOWLEDGED :: Except.ok COMMAND_ACKNOWLEDGED :: rest, lg⟩ r =
      (Except.ok (),
       ⟨rest, lg ++ [BusOp.write_mouse 0xe8, BusOp.read_data,
                     BusOp.write_data (VALID_RESOLUTIONS.findIdx (fun n => n == r)),
                     BusOp.read_data]⟩) ∧
    VALID_RESOLUTIONS.findIdx (fun n => n == 4) = 2 ∧
    (Mouse.request_status
        ⟨Except.ok COMMAND_ACKNOWLEDGED :: Except.ok st :: Except.ok b ::
           Except.ok sr :: rest, lg⟩).1 =
      Except.ok (MouseStatus.from_bits_truncate st, b, sr) := by
  refine ⟨?_, by decide, ?_⟩
  · simp [Mouse.set_resolution, hr, write_command_data_ok, Command.toByte]
  · simp [Mouse.request_status, Mouse.write_command, Mouse.check_response,
      Controller.read_data, Controller.write_mouse, MouseError.fromControllerError,
      COMMAND_ACKNOWLEDGED, hb, hsr]

/-- Witness for the amended C5 at `r = 4`, status resolution byte 2 and
sample rate 10. -/
theorem set_resolution_sends_index_status_returns_raw_witness :
    (4 : Nat) ∈ VALID_RESOLUTIONS ∧ (2 : Nat) ∈ VALID_RESOLUTIONS ∧
    (10 : Nat) ∈ VALID_SAMPLE_RATES ∧
    (Mouse.set_resolution ⟨[Except.ok 0xfa, Except.ok 0xfa], []⟩ 4 =
      (Except.ok (),
       ⟨[], [BusOp.write_mouse 0xe8, BusOp.read_data,
             BusOp.write_data (VALID_RESOLUTIONS.findIdx (fun n => n == 4)),
             BusOp.read_data]⟩) ∧
     VALID_RESOLUTIONS.findIdx (fun n => n == 4) = 2 ∧
     (Mouse.request_status
        ⟨[Except.ok 0xfa, Except.ok 7, Except.ok 2, Except.ok 10], []⟩).1 =
      Except.ok (MouseStatus.from_bits_truncate 7, 2, 10)) :=
  ⟨by decide, by decide, by decide,
   set_resolution_sends_index_status_returns_raw 4 2 10 7
     (by decide) (by decide) (by decide) [] []⟩

/-- Claim C2: in `Mouse::read_data`, a raw movement byte whose sign flag bit
(bit 4 of the flags byte for X, bit 5 for Y) is set decodes to
`(b | 0xFF00)` reinterpreted as `i16`, which is `b - 256` (so byte `0x05`
decodes to `-251`); with the sign flag clear it decodes to the
zero-extended byte itself (so `0x05` decodes to `+5`), independently for X
and Y. -/
theorem read_data_sign_extension (fb xb yb : Nat)
    (hf : fb < 256) (hx : xb < 256) (hy : yb < 256)
    (rest : List (Except ControllerError Nat)) (lg : List BusOp) :
    (Mouse.read_data
        ⟨Except.ok COMMAND_ACKNOWLEDGED :: Except.ok fb :: Except.ok xb ::
           Except.ok yb :: rest, lg⟩).1 =
      Except.ok (MouseMovement.from_bits_truncate fb,
        if Nat.testBit fb 4 then u16_as_i16 (xb ||| 0xff00) else u16_as_i16 xb,
        if Nat.testBit fb 5 then u16_as_i16 (yb ||| 0xff00) else u16_as_i16 yb) ∧
    u16_as_i16 (xb ||| 0xff00) = (xb : Int) - 256 ∧ u16_as_i16 xb = (xb : Int) ∧
    u16_as_i16 (yb ||| 0xff00) = (yb : Int) - 256 ∧ u16_as_i16 yb = (yb : Int) := by
  have hfb : fb % 256 = fb := Nat.mod_eq_of_lt hf
  have e4 := and_sixteen_eq_testBit fb hf
  have e5 := and_thirtytwo_eq_testBit fb hf
  refine ⟨?_, u16_as_i16_or_ff00 xb hx, u16_as_i16_byte xb hx,
    u16_as_i16_or_ff00 yb hy, u16_as_i16_byte yb hy⟩
  cases h4 : Nat.testBit fb 4 <;> cases h5 : Nat.testBit fb 5 <;>
    simp [Mouse.read_data, Mouse.write_command, Mouse.check_response,
      Controller.read_data, Controller.write_mouse, MouseError.fromControllerError,
      MouseMovement.from_bits_truncate, MouseMovement.contains,
      MouseMovement.X_SIGN_BIT, MouseMovement.Y_SIGN_BIT, hfb, e4, e5, h4, h5,
      COMMAND_ACKNOWLEDGED]

/-- Witness for C2: flags byte `0x30` (both sign bits set) with raw bytes
`0x05` decodes both axes to `-251`. -/
theorem read_data_sign_extension_witness :
    (Mouse.read_data
        ⟨[Except.ok 0xfa, Except.ok 0x30, Except.ok 0x05, Except.ok 0x05], []⟩).1 =
      Except.ok (MouseMovement.from_bits_truncate 0x30, -251, -251) := by
  have h := read_data_sign_extension 0x30 0x05 0x05
    (by decide) (by decide) (by decide) [] []
  simpa using h.1

/-- A successful `Mouse.read_data` run forces the script to start with the
acknowledgment byte followed by three data bytes, and determines the
returned triple from those bytes. -/
theorem read_data_ok_shape (inp : List (Except ControllerError Nat)) (lg : List BusOp)
    (mf : MouseMovement) (x y : Int)
    (h : (Mouse.read_data ⟨inp, lg⟩).1 = Except.ok (mf, x, y)) :
    ∃ fb xb yb rest,
      inp = Except.ok COMMAND_ACKNOWLEDGED :: Except.ok fb :: Except.ok xb ::
              Except.ok yb :: rest ∧
      mf = MouseMovement.from_bits_truncate fb ∧
      x = u16_as_i16 (if mf.contains MouseMovement.X_SIGN_BIT then xb ||| 0xff00 else xb) ∧
      y = u16_as_i16 (if mf.contains MouseMovement.Y_SIGN_BIT then yb ||| 0xff00 else yb) := by
  rcases inp with _ | ⟨r0, inp⟩
  · simp [Mouse.read_data, Mouse.write_command, Mouse.check_response,
      Controller.read_data, Controller.write_mouse, MouseError.fromControllerError] at h
  rcases r0 with e | b0
  · simp [Mouse.read_data, Mouse.write_command, Mouse.check_response,
      Controller.read_data, Controller.write_mouse, MouseError.fromControllerError] at h
  by_cases hb0 : b0 = 250
  case neg =>
    by_cases hb1 : b0 = 254 <;>
      simp [Mouse.read_data, Mouse.write_command, Mouse.check_response,
        Controller.read_data, Controller.write_mouse, MouseError.fromControllerError,
        RESEND, COMMAND_ACKNOWLEDGED, hb0, hb1] at h
  case pos =>
    subst hb0
    rcases inp with _ | ⟨r1, inp⟩
    · simp [Mouse.read_data, Mouse.write_command, Mouse.check_response,
        Controller.read_data, Controller.write_mouse, MouseError.fromControllerError,
        COMMAND_ACKNOWLEDGED] at h
    rcases r1 with e | fb
    · simp [Mouse.read_data, Mouse.write_command, Mouse.check_response,
        Controller.read_data, Controller.write_mouse, MouseError.fromControllerError,
        COMMAND_ACKNOWLEDGED] at h
    rcases inp with _ | ⟨r2, inp⟩
    · simp [Mouse.read_data, Mouse.write_command, Mouse.check_response,
        Controller.read_data, Controller.write_mouse, MouseError.fromControllerError,
        COMMAND_ACKNOWLEDGED] at h
    rcases r2 with e | xb
    · simp [Mouse.read_data, Mouse.write_command, Mouse.check_response,
        Controller.read_data, Controller.write_mouse, MouseError.fromControllerError,
        COMMAND_ACKNOWLEDGED] at h
    rcases inp with _ | ⟨r3, rest⟩
    · simp [Mouse.read_data, Mouse.write_command, Mouse.check_response,
        Controller.read_data, Controller.write_mouse, MouseError.fromControllerError,
        COMMAND_ACKNOWLEDGED] at h
    rcases r3 with e | yb
    · simp [Mouse.read_data, Mouse.write_command, Mouse.check_response,
        Controller.read_data, Controller.write_mouse, MouseError.fromControllerError,
        COMMAND_ACKNOWLEDGED] at h
    refine ⟨fb, xb, yb, rest, rfl, ?_⟩
    simp [Mouse.read_data, Mouse.write_command, Mouse.check_response,
      Controller.read_data, Controller.write_mouse, MouseError.fromControllerError,
      COMMAND_ACKNOWLEDGED, MouseMovement.from_bits_truncate] at h
    obtain ⟨h1, h2, h3⟩ := h
    subst h1
    exact ⟨rfl, h2.symm, h3.symm⟩

/-- Claim C9: whenever `Mouse::read_data` returns successfully (on any
script delivering bytes, i.e. values `< 256`), each returned 16-bit signed
motion value lies in `[-256, 255]`; a value whose sign flag was set lies
in `[-256, -1]` and a value whose sign flag was clear lies in `[0, 255]`. -/
theorem read_data_success_range (inp : List (Except ControllerError Nat)) (lg : List BusOp)
    (hbytes : ∀ b : Nat, Except.ok b ∈ inp → b < 256)
    (mf : MouseMovement) (x y : Int)
    (h : (Mouse.read_data ⟨inp, lg⟩).1 = Except.ok (mf, x, y)) :
    ((mf.contains MouseMovement.X_SIGN_BIT = true → -256 ≤ x ∧ x ≤ -1) ∧
     (mf.contains MouseMovement.X_SIGN_BIT = false → 0 ≤ x ∧ x ≤ 255)) ∧
    ((mf.contains MouseMovement.Y_SIGN_BIT = true → -256 ≤ y ∧ y ≤ -1) ∧
     (mf.contains MouseMovement.Y_SIGN_BIT = false → 0 ≤ y ∧ y ≤ 255)) ∧
    (-256 ≤ x ∧ x ≤ 255) ∧ (-256 ≤ y ∧ y ≤ 255) := by
  obtain ⟨fb, xb, yb, rest, hinp, hmf, hx, hy⟩ :=
    read_data_ok_shape inp lg mf x y h
  subst hinp
  have hxb : xb < 256 := hbytes xb (by simp)
  have hyb : yb < 256 := hbytes yb (by simp)
  have bx1 := u16_as_i16_or_ff00 xb hxb
  have bx2 := u16_as_i16_byte xb hxb
  have by1 := u16_as_i16_or_ff00 yb hyb
  have by2 := u16_as_i16_byte yb hyb
  have rx : (-256 ≤ x ∧ x ≤ -1 ∧ mf.contains MouseMovement.X_SIGN_BIT = true) ∨
      (0 ≤ x ∧ x ≤ 255 ∧ mf.contains MouseMovement.X_SIGN_BIT = false) := by
    cases hc : mf.contains MouseMovement.X_SIGN_BIT
    · right
      simp [hc] at hx
      rw [bx2] at hx
      exact ⟨by omega, by omega, rfl⟩
    · left
      simp [hc] at hx
      rw [bx1] at hx
      exact ⟨by omega, by omega, rfl⟩
  have ry : (-256 ≤ y ∧ y ≤ -1 ∧ mf.contains MouseMovement.Y_SIGN_BIT = true) ∨
      (0 ≤ y ∧ y ≤ 255 ∧ mf.contains MouseMovement.Y_SIGN_BIT = false) := by
    cases hc : mf.contains MouseMovement.Y_SIGN_BIT
    · right
      simp [hc] at hy
      rw [by2] at hy
      exact ⟨by omega, by omega, rfl⟩
    · left
      simp [hc] at hy
      rw [by1] at hy
      exact ⟨by omega, by omega, rfl⟩
  refine ⟨⟨?_, ?_⟩, ⟨?_, ?_⟩, ?_, ?_⟩
  · intro hq
    rcases rx with ⟨h1, h2, _⟩ | ⟨_, _, he⟩
    · exact ⟨h1, h2⟩
    · simp [hq] at he
  · intro hq
    rcases rx with ⟨_, _, he⟩ | ⟨h1, h2, _⟩
    · simp [hq] at he
    · exact ⟨h1, h2⟩
  · intro hq
    rcases ry with ⟨h1, h2, _⟩ | ⟨_, _, he⟩
    · exact ⟨h1, h2⟩
    · simp [hq] at he
  · intro hq
    rcases ry with ⟨_, _, he⟩ | ⟨h1, h2, _⟩
    · simp [hq] at he
    · exact ⟨h1, h2⟩
  · rcases rx with ⟨h1, h2, _⟩ | ⟨h1, h2, _⟩ <;> constructor <;> omega
  · rcases ry with ⟨h1, h2, _⟩ | ⟨h1, h2, _⟩ <;> constructor <;> omega

/-- Witness for C9: flags byte `0x30` (both sign bits set) with raw bytes
`0x05` yields `(-251, -251)`, inside `[-256, -1]`. -/
theorem read_data_success_range_witness :
    (((MouseMovement.from_bits_truncate 0x30).contains MouseMovement.X_SIGN_BIT = true →
        -256 ≤ (-251 : Int) ∧ (-251 : Int) ≤ -1) ∧
     ((MouseMovement.from_bits_truncate 0x30).contains MouseMovement.X_SIGN_BIT = false →
        0 ≤ (-251 : Int) ∧ (-251 : Int) ≤ 255)) ∧
    (((MouseMovement.from_bits_truncate 0x30).contains MouseMovement.Y_SIGN_BIT = true →
        -256 ≤ (-251 : Int) ∧ (-251 : Int) ≤ -1) ∧
     ((MouseMovement.from_bits_truncate 0x30).contains MouseMovement.Y_SIGN_BIT = false →
        0 ≤ (-251 : Int) ∧ (-251 : Int) ≤ 255)) ∧
    (-256 ≤ (-251 : Int) ∧ (-251 : Int) ≤ 255) ∧
    (-256 ≤ (-251 : Int) ∧ (-251 : Int) ≤ 255) :=
  read_data_success_range
    [Except.ok 0xfa, Except.ok 0x30, Except.ok 0x05, Except.ok 0x05] []
    (by
      intro b hb
      simp at hb
      rcases hb with rfl | rfl | rfl <;> omega)
    (MouseMovement.from_bits_truncate 0x30) (-251) (-251) (by rfl)

end Ps2
